import Mathlib

/-!
Shallow embedding of the oraculo-api detection core and verification of its
specification.  Numeric computations, done with Python floats and pandas in
the source, are idealised over the exact rationals `ℚ` (with `ℝ` only where
the source takes a square root); `round(x, n)` is modelled as exact
round-half-to-even at `n` decimals; pandas dataframes and series are modelled
as lists; network fetches are modelled by passing the fetched data as an
argument; `None`/`'no_data'` results are modelled with `Option`.
-/

namespace Oraculo

/-! Python/pandas helpers -/

/-- Rounding of a rational to the nearest integer, halves to even, as Python's
built-in `round` does (idealised to exact arithmetic). -/
def roundHalfEven (x : ℚ) : ℤ :=
  if 2 * (x - ⌊x⌋) < 1 then ⌊x⌋
  else if 1 < 2 * (x - ⌊x⌋) then ⌊x⌋ + 1
  else if ⌊x⌋ % 2 = 0 then ⌊x⌋ else ⌊x⌋ + 1

/-- Python `round(x, n)` over `ℚ`. -/
def pyRound (n : ℕ) (x : ℚ) : ℚ :=
  (roundHalfEven (10 ^ n * x) : ℚ) / 10 ^ n

/-- pandas `series.iloc[-k]`: the element `k` positions from the end for
`1 ≤ k ≤ len` (Python's `-0` is `0`, hence the first element for `k = 0`).
Out-of-range accesses, which raise in pandas, return the junk value `0`;
every use below is guarded in range. -/
def ilocNeg (xs : List ℚ) (k : ℕ) : ℚ :=
  if k = 0 then xs.getD 0 0 else xs.getD (xs.length - k) 0

/-- Arithmetic mean of a list, as pandas `Series.mean` (division by zero for
the empty list is the junk value `0`; every use below is guarded). -/
def listMean (xs : List ℚ) : ℚ := xs.sum / xs.length

/-- Running cumulative sum with accumulator, for pandas `Series.cumsum`. -/
def cumsumFrom (acc : ℚ) : List ℚ → List ℚ
  | [] => []
  | x :: xs => (acc + x) :: cumsumFrom (acc + x) xs

/-! Configuration defaults (`src/config.py`). -/

def RVOL_THRESHOLD : ℚ := 5
def MIN_CANDLES_REQUIRED : ℕ := 100
def CVD_DIVERGENCE_LOOKBACK : ℕ := 20
def CVD_THRESHOLD : ℚ := 3 / 10
def BB_PERIOD : ℕ := 20
def BB_STD : ℚ := 2
def BB_SQUEEZE_THRESHOLD : ℚ := 2 / 100

/-! Market scanner (`src/core/scanner.py`). -/

/-- One OHLCV candle row of the dataframe built in `fetch_historical_volume`
(`open` is renamed `open_price`: `open` is a Lean keyword). -/
structure Candle where
  timestamp : ℚ
  open_price : ℚ
  high : ℚ
  low : ℚ
  close : ℚ
  volume : ℚ
  deriving DecidableEq

/-- `MarketScanner.fetch_historical_volume`: the fetched candle list is an
argument; fewer than `min_candles` rows yields the empty dataframe. -/
def fetch_historical_volume (min_candles : ℕ) (ohlcv : List Candle) : List Candle :=
  if ohlcv.length < min_candles then [] else ohlcv

/-- `MarketScanner.calculate_rvol`: last volume over the mean of the earlier
volumes, rounded to two decimals; `0.0` when fewer than two rows or when the
mean is zero. -/
def calculate_rvol (df : List Candle) : ℚ :=
  if df.length < 2 then 0
  else
    let volumes := df.map Candle.volume
    let current_volume := volumes.getLastD 0
    let volume_sma := listMean volumes.dropLast
    if volume_sma = 0 then 0
    else pyRound 2 (current_volume / volume_sma)

/-- The volume-anomaly dict built by `scan_pair` (the `timestamp` and
`alert_type` entries, never read downstream, are omitted). -/
structure RvolSignal where
  symbol : String
  rvol : ℚ
  price : ℚ
  volume_current : ℚ
  volume_avg_24h : ℚ
  deriving DecidableEq

/-- `MarketScanner.scan_pair` on the fetched candles of one symbol:
`none` models both the `df.empty` early return and a below-threshold RVol. -/
def scan_pair (min_candles : ℕ) (threshold : ℚ) (symbol : String)
    (ohlcv : List Candle) : Option RvolSignal :=
  let df := fetch_historical_volume min_candles ohlcv
  if df = [] then none
  else
    let rvol := calculate_rvol df
    if threshold ≤ rvol then
      some { symbol := symbol
             rvol := rvol
             price := (df.map Candle.close).getLastD 0
             volume_current := (df.map Candle.volume).getLastD 0
             volume_avg_24h := listMean (df.map Candle.volume).dropLast }
    else none

/-! Order flow analyzer (`src/core/order_flow.py`). -/

/-- One classified trade row (`fetch_trades`): `volume_delta` is derived, so
only `price`, `amount`, `is_buy` are stored. -/
structure TradeRec where
  price : ℚ
  amount : ℚ
  is_buy : Bool
  deriving DecidableEq

/-- The signed volume `np.where(is_buy, amount, -amount)` of one trade. -/
def volume_delta (t : TradeRec) : ℚ :=
  if t.is_buy then t.amount else -t.amount

/-- `OrderFlowAnalyzer.calculate_cvd`: cumulative sum of the deltas. -/
def calculate_cvd (deltas : List ℚ) : List ℚ := cumsumFrom 0 deltas

/-- `OrderFlowAnalyzer.detect_bullish_divergence`, exactly as implemented:
the guard requires `lookback + 1` points, then the last value of each series
is compared with `iloc[-lookback]` - the value `lookback - 1` positions back,
not the `lookback` positions the docstring (`Low[n] < Low[n-lookback]`)
announces. -/
def detect_bullish_divergence (price_series cvd_series : List ℚ)
    (lookback : ℕ) : Bool :=
  if price_series.length < lookback + 1 then false
  else
    let current_price := price_series.getLastD 0
    let past_price := ilocNeg price_series lookback
    let current_cvd := cvd_series.getLastD 0
    let past_cvd := ilocNeg cvd_series lookback
    decide (current_price < past_price) && decide (past_cvd < current_cvd)

/-- The comparison the specification describes for `detect_bullish_divergence`
(and the function's own docstring): last value against the value `lookback`
steps back, i.e. `iloc[-(lookback+1)]`.  Stated from the spec's words, for
comparison with the implementation above. -/
def bullish_divergence_claim (price_series cvd_series : List ℚ)
    (lookback : ℕ) : Bool :=
  if price_series.length < lookback + 1 then false
  else
    decide (price_series.getLastD 0 < ilocNeg price_series (lookback + 1)) &&
    decide (ilocNeg cvd_series (lookback + 1) < cvd_series.getLastD 0)

/-- Total buy-aggressor volume of a trade sample (`analyze_pair`). -/
def total_buys (trades : List TradeRec) : ℚ :=
  ((trades.filter (fun t => t.is_buy)).map TradeRec.amount).sum

/-- Total sell-aggressor volume of a trade sample (`analyze_pair`). -/
def total_sells (trades : List TradeRec) : ℚ :=
  ((trades.filter (fun t => !t.is_buy)).map TradeRec.amount).sum

/-! Order book imbalance analyzer (`src/core/imbalance.py`). -/

/-- One `[price, amount]` order book level. -/
structure Level where
  price : ℚ
  amount : ℚ
  deriving DecidableEq

/-- The wall dict returned by `_detect_wall`. -/
structure Wall where
  price : ℚ
  amount : ℚ
  volume_pct : ℚ
  deriving DecidableEq

/-- An order book snapshot as returned by `fetch_order_book`: bids sorted by
descending price, asks ascending. -/
structure Orderbook where
  bids : List Level
  asks : List Level
  deriving DecidableEq

/-- `OrderBookImbalanceAnalyzer._detect_wall`: walk the first 10 levels and
return the first whose share of `total_volume` is at least
`threshold * 100` percent.  `total_volume` is whatever the caller passes -
`get_orderbook_imbalance` passes the depth-band total of the side. -/
def detect_wall (orders : List Level) (total_volume : ℚ) (threshold : ℚ) :
    Option Wall :=
  if orders = [] ∨ total_volume = 0 then none
  else
    ((orders.take 10).find?
        (fun l => decide (threshold * 100 ≤ l.amount / total_volume * 100))).map
      (fun l => { price := l.price
                  amount := l.amount
                  volume_pct := pyRound 2 (l.amount / total_volume * 100) })

/-- `OrderBookImbalanceAnalyzer._interpret_pressure`. -/
def interpret_pressure (imbalance_pct : ℚ) : String :=
  if 30 < imbalance_pct then "🟢 COMPRA FUERTE"
  else if 10 < imbalance_pct then "🟢 COMPRA MODERADA"
  else if imbalance_pct < -30 then "🔴 VENTA FUERTE"
  else if imbalance_pct < -10 then "🔴 VENTA MODERADA"
  else "⚪ NEUTRAL"

/-- The result dict of `get_orderbook_imbalance` (the `symbol` and the
`*_wall_detected` booleans, derived fields, are omitted). -/
structure ImbalanceResult where
  mid_price : ℚ
  imbalance_pct : ℚ
  spread_pct : ℚ
  total_bid_volume : ℚ
  total_ask_volume : ℚ
  bid_wall : Option Wall
  ask_wall : Option Wall
  pressure : String
  deriving DecidableEq

/-- `OrderBookImbalanceAnalyzer.get_orderbook_imbalance` on a fetched order
book: `none` models the `'no_data'` result for a book missing a side.
Totals are summed over the levels within `depth_percentage` percent of the
mid price; `_detect_wall` is called on the side's full level list with that
band total. -/
def get_orderbook_imbalance (ob : Orderbook) (depth_percentage : ℚ) :
    Option ImbalanceResult :=
  if ob.bids = [] ∨ ob.asks = [] then none
  else
    let best_bid := (ob.bids.headD ⟨0, 0⟩).price
    let best_ask := (ob.asks.headD ⟨0, 0⟩).price
    let mid_price := (best_bid + best_ask) / 2
    let price_range := mid_price * (depth_percentage / 100)
    let upper_bound := mid_price + price_range
    let lower_bound := mid_price - price_range
    let relevant_bids := ob.bids.filter (fun l => decide (lower_bound ≤ l.price))
    let relevant_asks := ob.asks.filter (fun l => decide (l.price ≤ upper_bound))
    let total_bid_volume := (relevant_bids.map Level.amount).sum
    let total_ask_volume := (relevant_asks.map Level.amount).sum
    let total_volume := total_bid_volume + total_ask_volume
    let imbalance_pct :=
      if total_volume = 0 then 0
      else (total_bid_volume - total_ask_volume) / total_volume * 100
    let spread_pct :=
      if 0 < mid_price then (best_ask - best_bid) / mid_price * 100 else 0
    some { mid_price := mid_price
           imbalance_pct := pyRound 2 imbalance_pct
           spread_pct := pyRound 4 spread_pct
           total_bid_volume := total_bid_volume
           total_ask_volume := total_ask_volume
           bid_wall := detect_wall ob.bids total_bid_volume (3 / 10)
           ask_wall := detect_wall ob.asks total_ask_volume (3 / 10)
           pressure := interpret_pressure imbalance_pct }

/-- The wall predicate the specification describes: a level of the side is a
wall iff its size is at least 30 percent of the summed size of the first 10
levels of that same side.  Stated from the spec's words, for comparison with
`detect_wall` as called by `get_orderbook_imbalance`. -/
def wall_claim (orders : List Level) (l : Level) : Prop :=
  l ∈ orders.take 10 ∧
    3 / 10 * ((orders.take 10).map Level.amount).sum ≤ l.amount

/-! Indicator library (`src/core/indicators.py`). -/

/-- The last fully-formed rolling window: the final `period` elements. -/
def lastWindow (xs : List ℚ) (period : ℕ) : List ℚ :=
  xs.drop (xs.length - period)

/-- Sample variance with one delta degree of freedom, as pandas
`Series.std` squared (`ddof = 1`). -/
def sampleVariance (xs : List ℚ) : ℚ :=
  (xs.map (fun x => (x - listMean xs) ^ 2)).sum / ((xs.length : ℚ) - 1)

/-- `rolling(window=period).mean()` at the last index. -/
def rollingMeanLast (xs : List ℚ) (period : ℕ) : ℚ :=
  listMean (lastWindow xs period)

/-- `rolling(window=period).std()` squared at the last index. -/
def rollingVarLast (xs : List ℚ) (period : ℕ) : ℚ :=
  sampleVariance (lastWindow xs period)

/-- `TechnicalIndicators.detect_bb_squeeze` over the candle dataframe:
false when fewer than `period` rows, otherwise the Bollinger bandwidth
`(upper - lower) / middle` of the closes at the last fully-formed window
is strictly below the threshold.  The square root of the rolling variance
lives in `ℝ`, so the result is a `Prop` (classically decidable). -/
def detect_bb_squeeze (df : List Candle) (period : ℕ)
    (std_mult threshold : ℚ) : Prop :=
  if df.length < period then False
  else
    let closes := df.map Candle.close
    let middle : ℝ := (rollingMeanLast closes period : ℚ)
    let std : ℝ := Real.sqrt (rollingVarLast closes period)
    let upper : ℝ := middle + std * (std_mult : ℚ)
    let lower : ℝ := middle - std * (std_mult : ℚ)
    (upper - lower) / middle < ((threshold : ℚ) : ℝ)

/-! `OrderFlowAnalyzer.analyze_pair` (`src/core/order_flow.py`). -/

/-- The result dict of `analyze_pair` (the `timestamp` entry and the top-3
`icebergs` slice are omitted; `signal_strength` is present only for the
strong-buy case, hence an `Option`). -/
structure OrderFlowResult where
  symbol : String
  cvd_current : ℚ
  bullish_divergence : Bool
  buy_sell_ratio : ℚ
  icebergs_detected : ℕ
  signal_strength : Option String
  deriving DecidableEq

/-- `OrderFlowAnalyzer.analyze_pair` on the fetched trades; the iceberg
levels, fetched from the order book by `detect_iceberg_orders`, are passed
in as data.  `none` models the `'no_data'` result for an empty trade
sample. -/
def analyze_pair (symbol : String) (trades : List TradeRec)
    (icebergs : List Level) : Option OrderFlowResult :=
  if trades = [] then none
  else
    let cvd := calculate_cvd (trades.map volume_delta)
    let has_divergence :=
      detect_bullish_divergence (trades.map TradeRec.price) cvd
        CVD_DIVERGENCE_LOOKBACK
    let tb := total_buys trades
    let ts := total_sells trades
    let buy_sell_ratio := if 0 < ts then tb / ts else 0
    some { symbol := symbol
           cvd_current := cvd.getLastD 0
           bullish_divergence := has_divergence
           buy_sell_ratio := pyRound 2 buy_sell_ratio
           icebergs_detected := icebergs.length
           signal_strength :=
             if has_divergence && decide (1 + CVD_THRESHOLD < buy_sell_ratio)
             then some "STRONG_BUY" else none }

/-! Signal detector (`src/core/signals.py`). -/

open Classical in
/-- `SignalDetector.calculate_signal_score`: additive point system over the
RVol signal (optional), the order-flow analysis and the candle dataframe,
capped at 100.  The Bollinger-squeeze branch tests a classically decidable
proposition, so the definition is noncomputable. -/
noncomputable def calculate_signal_score (rvol_signal : Option RvolSignal)
    (orderflow_analysis : OrderFlowResult) (price_df : List Candle) : ℕ :=
  let score1 :=
    match rvol_signal with
    | none => 0
    | some rs =>
        if 5 ≤ rs.rvol then
          if 10 ≤ rs.rvol then 30 else if 7 ≤ rs.rvol then 25 else 20
        else 0
  let score2 :=
    if orderflow_analysis.bullish_divergence then
      40 + (if 3 / 2 < orderflow_analysis.buy_sell_ratio then 5 else 0)
    else 0
  let score3 :=
    if price_df ≠ [] then
      if detect_bb_squeeze price_df BB_PERIOD BB_STD BB_SQUEEZE_THRESHOLD
      then 20 else 0
    else 0
  let score4 := if 0 < orderflow_analysis.icebergs_detected then 10 else 0
  min (score1 + score2 + score3 + score4) 100

/-- `SignalDetector.classify_signal`. -/
def classify_signal (score : ℤ) : String :=
  if 80 ≤ score then "🔴 DISPARO DE FRANCOTIRADOR"
  else if 60 ≤ score then "🟡 VIGILANCIA ESTRECHA"
  else if 40 ≤ score then "🟢 ACUMULACIÓN SILENCIOSA"
  else "⚪ RUIDO"

/-- `SignalDetector._get_action_recommendation`. -/
def get_action_recommendation (score : ℤ) : String :=
  if 80 ≤ score then "COMPRA INMEDIATA - Entrada agresiva con stop loss ajustado"
  else if 60 ≤ score then "PREPARAR ENTRADA - Esperar confirmación en gráfico de 15m"
  else if 40 ≤ score then "ACUMULAR GRADUALMENTE - Ideal para DCA en próximas 24-48h"
  else "SIN ACCIÓN - Seguir monitoreando"

/-- The signal dict built by `generate_signal`; the nested `indicators` dict
is flattened into `ind_*` fields; `timestamp` holds the `datetime.now()`
value the call observed. -/
structure Signal where
  symbol : String
  timestamp : ℚ
  score : ℕ
  classification : String
  price : ℚ
  ind_rvol : ℚ
  ind_cvd_divergence : Bool
  ind_buy_sell_ratio : ℚ
  ind_icebergs : ℕ
  ind_bb_squeeze : Bool
  action : String

open Classical in
/-- `SignalDetector.generate_signal`: the two effects the method performs
besides building the dict - reading the wall clock and appending to the
detector's `signals_history` attribute - are made explicit: `now` is the
observed clock value and the history is threaded in and out.  The returned
pair is (built signal, history after the call). -/
noncomputable def generate_signal (symbol : String)
    (rvol_data : Option RvolSignal) (orderflow_data : OrderFlowResult)
    (price_df : List Candle) (now : ℚ) (signals_history : List Signal) :
    Signal × List Signal :=
  let score := calculate_signal_score rvol_data orderflow_data price_df
  let signal : Signal :=
    { symbol := symbol
      timestamp := now
      score := score
      classification := classify_signal score
      price := match rvol_data with | some rs => rs.price | none => 0
      ind_rvol := match rvol_data with | some rs => rs.rvol | none => 0
      ind_cvd_divergence := orderflow_data.bullish_divergence
      ind_buy_sell_ratio := orderflow_data.buy_sell_ratio
      ind_icebergs := orderflow_data.icebergs_detected
      ind_bb_squeeze :=
        if price_df ≠ [] then
          if detect_bb_squeeze price_df BB_PERIOD BB_STD BB_SQUEEZE_THRESHOLD
          then true else false
        else false
      action := get_action_recommendation score }
  (signal, signals_history ++ [signal])

/-- `SignalDetector.get_top_signals`: the history stably sorted by
descending score (`sorted(..., key=score, reverse=True)`), truncated. -/
def get_top_signals (signals_history : List Signal) (limit : ℕ) :
    List Signal :=
  (signals_history.mergeSort (fun a b => decide (b.score ≤ a.score))).take limit

/-! Scan orchestrator (`src/main.py`, `OraculoEngine.scan_cycle`). -/

/-- The per-symbol data one iteration of the `scan_cycle` loop consumes: the
RVol signal the scanner produced for the symbol, and the order-flow result
and refreshed candle dataframe fetched inside the loop, with the clock value
`generate_signal` observes. -/
structure CycleInput where
  symbol : String
  rvol_data : RvolSignal
  orderflow_data : OrderFlowResult
  price_df : List Candle
  now : ℚ

/-- The body of the `scan_cycle` loop over the detected RVol signals:
threads the detector history and collects, in loop order, the signals
handed to `print_signal_alert` (those with score at least 60).  Returns
(final history, emitted alert signals). -/
noncomputable def scan_cycle_loop :
    List CycleInput → List Signal → List Signal × List Signal
  | [], hist => (hist, [])
  | inp :: rest, hist =>
    let sh := generate_signal inp.symbol (some inp.rvol_data)
      inp.orderflow_data inp.price_df inp.now hist
    let tail := scan_cycle_loop rest sh.2
    (tail.1, (if 60 ≤ sh.1.score then [sh.1] else []) ++ tail.2)

/-- `scan_cycle` from a starting detector history. -/
noncomputable def scan_cycle (inputs : List CycleInput)
    (signals_history : List Signal) : List Signal × List Signal :=
  scan_cycle_loop inputs signals_history

/-- The signal one cycle iteration generates for an input - independent of
the history at that point. -/
noncomputable def cycle_signal (inp : CycleInput) : Signal :=
  (generate_signal inp.symbol (some inp.rvol_data) inp.orderflow_data
    inp.price_df inp.now []).1

/-! Point functions of the specification's scoring table (`spec.md` §4.5),
stated from the spec's words for comparison with
`calculate_signal_score`. -/

/-- Spec table: 30 points for RVol at least 10, 25 for `[7, 10)`, 20 for
`[5, 7)`, else nothing. -/
def rvolPoints (rvol_signal : Option RvolSignal) : ℕ :=
  match rvol_signal with
  | none => 0
  | some rs =>
      if 10 ≤ rs.rvol then 30
      else if 7 ≤ rs.rvol then 25
      else if 5 ≤ rs.rvol then 20
      else 0

/-- Spec table: 40 points for a bullish divergence, 5 more when the
buy/sell ratio exceeds 1.5. -/
def divergencePoints (ofr : OrderFlowResult) : ℕ :=
  if ofr.bullish_divergence then
    40 + (if 3 / 2 < ofr.buy_sell_ratio then 5 else 0)
  else 0

open Classical in
/-- Spec table: 20 points for a Bollinger squeeze on the supplied price
history. -/
noncomputable def squeezePoints (price_df : List Candle) : ℕ :=
  if detect_bb_squeeze price_df BB_PERIOD BB_STD BB_SQUEEZE_THRESHOLD
  then 20 else 0

/-- Spec table: 10 points when icebergs were detected. -/
def icebergPoints (ofr : OrderFlowResult) : ℕ :=
  if 0 < ofr.icebergs_detected then 10 else 0

/-! Concrete order books used to settle the wall-detection claim. -/

/-- The spec's worked wall example: a bid side of exactly 10 levels totalling
100 - one level of 35 and nine of 65/9 (about 7.2) - all inside the one
percent depth band around the mid price 10050. -/
def bookWindow : Orderbook :=
  { bids := [⟨10000, 35⟩, ⟨9999, 65/9⟩, ⟨9998, 65/9⟩, ⟨9997, 65/9⟩,
             ⟨9996, 65/9⟩, ⟨9995, 65/9⟩, ⟨9994, 65/9⟩, ⟨9993, 65/9⟩,
             ⟨9992, 65/9⟩, ⟨9991, 65/9⟩]
    asks := [⟨10100, 1⟩] }

/-- A deeper book: the same first 10 bid levels in shape (one 35, nine of 5,
window total 80) followed by ten further levels of 12, all twenty inside the
one percent depth band, so the band total is 200. -/
def bookDeep : Orderbook :=
  { bids := [⟨10000, 35⟩, ⟨9999, 5⟩, ⟨9998, 5⟩, ⟨9997, 5⟩, ⟨9996, 5⟩,
             ⟨9995, 5⟩, ⟨9994, 5⟩, ⟨9993, 5⟩, ⟨9992, 5⟩, ⟨9991, 5⟩,
             ⟨9990, 12⟩, ⟨9989, 12⟩, ⟨9988, 12⟩, ⟨9987, 12⟩, ⟨9986, 12⟩,
             ⟨9985, 12⟩, ⟨9984, 12⟩, ⟨9983, 12⟩, ⟨9982, 12⟩, ⟨9981, 12⟩]
    asks := [⟨10100, 1⟩] }

/-!
Helper lemmas, shared by the claim theorems below.
-/

/-- Rounding an integer value is the identity. -/
lemma roundHalfEven_intCast (n : ℤ) : roundHalfEven (n : ℚ) = n := by
  unfold roundHalfEven
  rw [Int.floor_intCast]
  norm_num

/-- Python rounding of an integer value is the identity. -/
lemma pyRound_intCast (k : ℕ) (n : ℤ) : pyRound k (n : ℚ) = n := by
  unfold pyRound
  rw [show (10 : ℚ) ^ k * (n : ℚ) = ((10 ^ k * n : ℤ) : ℚ) by push_cast; ring,
    roundHalfEven_intCast]
  push_cast
  rw [mul_comm, mul_div_assoc, div_self (by positivity), mul_one]

/-- Python rounding of zero is zero. -/
lemma pyRound_zero (k : ℕ) : pyRound k 0 = 0 := by
  simpa using pyRound_intCast k 0

/-- Python rounding of 35 at two decimals is 35. -/
lemma pyRound_thirtyfive : pyRound 2 (35 : ℚ) = 35 := by
  have h := pyRound_intCast 2 35
  push_cast at h
  exact h

/-- A series shorter than the Bollinger period never reports a squeeze. -/
lemma not_detect_bb_squeeze_of_short {df : List Candle} {period : ℕ}
    (std_mult threshold : ℚ) (h : df.length < period) :
    ¬ detect_bb_squeeze df period std_mult threshold := by
  intro hsq
  unfold detect_bb_squeeze at hsq
  rw [if_pos h] at hsq
  exact hsq

/-- With a fully formed window, the squeeze test is exactly the comparison of
the bandwidth `2·mult·std / middle` with the threshold. -/
lemma detect_bb_squeeze_iff {df : List Candle} {period : ℕ}
    (std_mult threshold : ℚ) (h : period ≤ df.length) :
    detect_bb_squeeze df period std_mult threshold ↔
      2 * (std_mult : ℝ) *
          Real.sqrt ((rollingVarLast (df.map Candle.close) period : ℚ)) /
          ((rollingMeanLast (df.map Candle.close) period : ℚ) : ℝ) <
        ((threshold : ℚ) : ℝ) := by
  simp only [detect_bb_squeeze]
  rw [if_neg (by omega),
    show ∀ m s kk : ℝ, m + s * kk - (m - s * kk) = 2 * kk * s from
      by intros; ring]

open Classical in
/-- The spec's scoring table: `calculate_signal_score` is the capped sum of
the four point components. -/
lemma calculate_signal_score_eq (rvol_signal : Option RvolSignal)
    (ofr : OrderFlowResult) (price_df : List Candle) :
    calculate_signal_score rvol_signal ofr price_df =
      min (rvolPoints rvol_signal + divergencePoints ofr +
        squeezePoints price_df + icebergPoints ofr) 100 := by
  have h1 : (match rvol_signal with
      | none => (0 : ℕ)
      | some rs =>
          if 5 ≤ rs.rvol then
            if 10 ≤ rs.rvol then 30 else if 7 ≤ rs.rvol then 25 else 20
          else 0) = rvolPoints rvol_signal := by
    cases rvol_signal with
    | none => rfl
    | some rs =>
      show (if 5 ≤ rs.rvol then
          if 10 ≤ rs.rvol then 30 else if 7 ≤ rs.rvol then 25 else 20
        else (0 : ℕ)) =
        (if 10 ≤ rs.rvol then 30
         else if 7 ≤ rs.rvol then 25
         else if 5 ≤ rs.rvol then 20 else 0)
      split_ifs <;> first | rfl | linarith
  have h3 : (if price_df ≠ [] then
        if detect_bb_squeeze price_df BB_PERIOD BB_STD BB_SQUEEZE_THRESHOLD
        then 20 else 0
      else (0 : ℕ)) = squeezePoints price_df := by
    by_cases hnil : price_df = []
    · subst hnil
      rw [if_neg (by simp)]
      unfold squeezePoints
      rw [if_neg (not_detect_bb_squeeze_of_short BB_STD BB_SQUEEZE_THRESHOLD
        (by decide))]
    · rw [if_pos hnil]
      rfl
  simp only [calculate_signal_score]
  rw [h1, h3]
  rfl

/-- The scan cycle grows the history by the generated signals in loop order
and emits, also in loop order, exactly those with score at least 60. -/
lemma scan_cycle_loop_eq (inputs : List CycleInput) (hist : List Signal) :
    scan_cycle_loop inputs hist =
      (hist ++ inputs.map cycle_signal,
       (inputs.map cycle_signal).filter (fun s => decide (60 ≤ s.score))) := by
  induction inputs generalizing hist with
  | nil => simp [scan_cycle_loop]
  | cons inp rest ih =>
    have hsig : (generate_signal inp.symbol (some inp.rvol_data)
        inp.orderflow_data inp.price_df inp.now hist).1 = cycle_signal inp := rfl
    have hsig2 : (generate_signal inp.symbol (some inp.rvol_data)
        inp.orderflow_data inp.price_df inp.now hist).2 =
        hist ++ [cycle_signal inp] := rfl
    simp only [scan_cycle_loop, ih, List.map_cons, List.filter_cons, hsig,
      hsig2, Prod.mk.injEq]
    refine ⟨by simp, ?_⟩
    by_cases hsc : 60 ≤ (cycle_signal inp).score
    · rw [if_pos hsc, if_pos (by simpa using hsc)]
      simp
    · rw [if_neg hsc, if_neg (by simpa using hsc)]
      simp

/-- `get_top_signals` output is sorted by descending score. -/
lemma get_top_signals_sorted (signals_history : List Signal) (limit : ℕ) :
    List.Sorted (fun a b => b.score ≤ a.score)
      (get_top_signals signals_history limit) := by
  have hsorted :=
    @List.sorted_mergeSort Signal (fun a b => decide (b.score ≤ a.score))
      (by intro a b c hab hbc; simp only [decide_eq_true_eq] at *; omega)
      (by intro a b; simp only [Bool.or_eq_true, decide_eq_true_eq]; omega)
      signals_history
  have htake := hsorted.sublist
    (List.take_sublist limit
      (signals_history.mergeSort (fun a b => decide (b.score ≤ a.score))))
  exact htake.imp (fun h => by simpa using h)

/-- An empty price dataframe scores no squeeze points. -/
lemma squeezePoints_nil : squeezePoints [] = 0 := by
  unfold squeezePoints
  rw [if_neg (not_detect_bb_squeeze_of_short BB_STD BB_SQUEEZE_THRESHOLD
    (by decide))]

/-!
Claim theorems.
-/

/-- C1.  The claim (and the function's own docstring) says
`detect_bullish_divergence` compares the last value with the value exactly
`lookback` steps back, but the implementation reads `iloc[-lookback]` - only
`lookback - 1` steps back.  At `prices = [10,5,6,6,6]`, `cvd = [0,0,0,0,1]`,
`lookback = 4` the documented comparison (`6 < 10` and `1 > 0`) holds, yet
the code compares `6 < 5` and returns false; the spec's own worked example
`[10,9,8,7,6]` / `[1,2,1,3,5]` happens to return true either way. -/
theorem bullish_divergence_offbyone :
    detect_bullish_divergence [10, 5, 6, 6, 6] [0, 0, 0, 0, 1] 4 = false ∧
    bullish_divergence_claim [10, 5, 6, 6, 6] [0, 0, 0, 0, 1] 4 = true ∧
    detect_bullish_divergence [10, 9, 8, 7, 6] [1, 2, 1, 3, 5] 4 = true := by
  decide

/-- C6.  `classify_signal` maps a score to the four tiers with breakpoints
80, 60, 40, inclusive on the lower bound of each band. -/
theorem classify_signal_bands (score : ℤ) :
    (classify_signal score = "🔴 DISPARO DE FRANCOTIRADOR" ↔ 80 ≤ score) ∧
    (classify_signal score = "🟡 VIGILANCIA ESTRECHA" ↔
      60 ≤ score ∧ score < 80) ∧
    (classify_signal score = "🟢 ACUMULACIÓN SILENCIOSA" ↔
      40 ≤ score ∧ score < 60) ∧
    (classify_signal score = "⚪ RUIDO" ↔ score < 40) := by
  unfold classify_signal
  split_ifs with h1 h2 h3
  · exact ⟨iff_of_true rfl h1, iff_of_false (by simp) (by omega),
      iff_of_false (by simp) (by omega), iff_of_false (by simp) (by omega)⟩
  · exact ⟨iff_of_false (by simp) (by omega), iff_of_true rfl (by omega),
      iff_of_false (by simp) (by omega), iff_of_false (by simp) (by omega)⟩
  · exact ⟨iff_of_false (by simp) (by omega), iff_of_false (by simp) (by omega),
      iff_of_true rfl (by omega), iff_of_false (by simp) (by omega)⟩
  · exact ⟨iff_of_false (by simp) (by omega), iff_of_false (by simp) (by omega),
      iff_of_false (by simp) (by omega), iff_of_true rfl (by omega)⟩

/-- Boundary witness for C6: 80/79, 60/59, 40/39. -/
theorem classify_signal_bands_witness :
    classify_signal 80 = "🔴 DISPARO DE FRANCOTIRADOR" ∧
    classify_signal 79 = "🟡 VIGILANCIA ESTRECHA" ∧
    classify_signal 60 = "🟡 VIGILANCIA ESTRECHA" ∧
    classify_signal 59 = "🟢 ACUMULACIÓN SILENCIOSA" ∧
    classify_signal 40 = "🟢 ACUMULACIÓN SILENCIOSA" ∧
    classify_signal 39 = "⚪ RUIDO" :=
  ⟨(classify_signal_bands 80).1.mpr (by norm_num),
   (classify_signal_bands 79).2.1.mpr (by norm_num),
   (classify_signal_bands 60).2.1.mpr (by norm_num),
   (classify_signal_bands 59).2.2.1.mpr (by norm_num),
   (classify_signal_bands 40).2.2.1.mpr (by norm_num),
   (classify_signal_bands 39).2.2.2.mpr (by norm_num)⟩

/-- C7.  When the mean of all volumes but the last is zero, `calculate_rvol`
returns exactly 0 - the division is never taken, so no infinity, NaN or
division error can arise. -/
theorem rvol_zero_mean (df : List Candle)
    (h : listMean ((df.map Candle.volume).dropLast) = 0) :
    calculate_rvol df = 0 := by
  simp only [calculate_rvol]
  split_ifs <;> rfl

/-- Witness for C7: three candles whose earlier volumes are all zero. -/
theorem rvol_zero_mean_witness :
    calculate_rvol [⟨0, 0, 0, 0, 0, 0⟩, ⟨0, 0, 0, 0, 0, 0⟩,
      ⟨0, 0, 0, 0, 1, 5⟩] = 0 :=
  rvol_zero_mean _ (by norm_num [listMean])

/-- C8.  A candle series shorter than `min_candles_required` makes
`scan_pair` return absence (`none`), with no RVol computed and no error. -/
theorem scan_pair_insufficient_data (min_candles : ℕ) (threshold : ℚ)
    (symbol : String) (ohlcv : List Candle)
    (h : ohlcv.length < min_candles) :
    scan_pair min_candles threshold symbol ohlcv = none := by
  simp only [scan_pair, fetch_historical_volume]
  rw [if_pos h]
  simp

/-- Witness for C8: the empty series under the default configuration. -/
theorem scan_pair_insufficient_data_witness :
    scan_pair MIN_CANDLES_REQUIRED RVOL_THRESHOLD "BTC/USDT" [] = none :=
  scan_pair_insufficient_data MIN_CANDLES_REQUIRED RVOL_THRESHOLD "BTC/USDT" []
    (by decide)

/-- C10.  On a non-empty trade sample whose sell-aggressor volume sums to
zero, `analyze_pair` reports a buy/sell ratio of exactly 0 (the division is
never taken), and therefore never the `STRONG_BUY` strength - the
`ratio > 1 + cvd_threshold` test cannot hold (nor can `ratio > 1.5`
downstream). -/
theorem buy_sell_ratio_zero_sells (symbol : String) (trades : List TradeRec)
    (icebergs : List Level) (hne : trades ≠ [])
    (hz : total_sells trades = 0) :
    (analyze_pair symbol trades icebergs).map OrderFlowResult.buy_sell_ratio =
      some 0 ∧
    (analyze_pair symbol trades icebergs).map OrderFlowResult.signal_strength =
      some none := by
  simp only [analyze_pair]
  rw [if_neg hne, hz]
  norm_num [CVD_THRESHOLD, pyRound_zero]

/-- Witness for C10: a single buy-aggressor trade. -/
theorem buy_sell_ratio_zero_sells_witness :
    (analyze_pair "BTC/USDT" [⟨100, 2, true⟩] []).map
        OrderFlowResult.buy_sell_ratio = some 0 ∧
    (analyze_pair "BTC/USDT" [⟨100, 2, true⟩] []).map
        OrderFlowResult.signal_strength = some none :=
  buy_sell_ratio_zero_sells "BTC/USDT" [⟨100, 2, true⟩] [] (by simp)
    (by simp [total_sells])

/-- C5.  `calculate_signal_score` is the capped additive point system of the
spec table - hence always at most 100 - and turning on a bullish divergence
on an otherwise-zero-score input raises the score to exactly 40 (45 when the
buy/sell ratio exceeds 1.5) and never lowers any score. -/
theorem signal_score_characterization (rvol_signal : Option RvolSignal)
    (ofr : OrderFlowResult) (price_df : List Candle) :
    calculate_signal_score rvol_signal ofr price_df =
      min (rvolPoints rvol_signal + divergencePoints ofr +
        squeezePoints price_df + icebergPoints ofr) 100 ∧
    calculate_signal_score rvol_signal ofr price_df ≤ 100 ∧
    (ofr.bullish_divergence = false →
      calculate_signal_score rvol_signal ofr price_df = 0 →
      calculate_signal_score rvol_signal
          { ofr with bullish_divergence := true } price_df =
        if 3 / 2 < ofr.buy_sell_ratio then 45 else 40) ∧
    calculate_signal_score rvol_signal ofr price_df ≤
      calculate_signal_score rvol_signal
        { ofr with bullish_divergence := true } price_df := by
  refine ⟨calculate_signal_score_eq rvol_signal ofr price_df, ?_, ?_, ?_⟩
  · rw [calculate_signal_score_eq]
    exact min_le_right _ _
  · intro hdiv h0
    rw [calculate_signal_score_eq] at h0
    have hsum : rvolPoints rvol_signal + divergencePoints ofr +
        squeezePoints price_df + icebergPoints ofr = 0 := by
      rcases Nat.min_eq_zero_iff.mp h0 with hh | hh
      · exact hh
      · omega
    have hdp : divergencePoints { ofr with bullish_divergence := true } =
        if 3 / 2 < ofr.buy_sell_ratio then 45 else 40 := by
      simp only [divergencePoints, if_pos]
      split_ifs <;> norm_num
    have hip : icebergPoints { ofr with bullish_divergence := true } =
        icebergPoints ofr := rfl
    rw [calculate_signal_score_eq, hdp, hip]
    split_ifs <;> omega
  · rw [calculate_signal_score_eq, calculate_signal_score_eq]
    have hdmono : divergencePoints ofr ≤
        divergencePoints { ofr with bullish_divergence := true } := by
      simp only [divergencePoints]
      cases hb : ofr.bullish_divergence <;> simp [hb]
    have hip : icebergPoints { ofr with bullish_divergence := true } =
        icebergPoints ofr := rfl
    rw [hip]
    exact min_le_min (by omega) le_rfl

/-- Witness for C5: an otherwise-zero-score input with ratio 2 jumps to 45
when the divergence flag is turned on. -/
theorem signal_score_characterization_witness :
    calculate_signal_score none ⟨"X", 0, true, 2, 0, none⟩ [] = 45 := by
  have h0 : calculate_signal_score none ⟨"X", 0, false, 2, 0, none⟩ [] = 0 := by
    rw [calculate_signal_score_eq]
    norm_num [rvolPoints, divergencePoints, icebergPoints, squeezePoints_nil]
  have h := (signal_score_characterization none
    ⟨"X", 0, false, 2, 0, none⟩ []).2.2.1 rfl h0
  norm_num at h
  exact h

/-- C9.  `detect_bb_squeeze` fails closed - any series shorter than the
Bollinger period yields false, with no exception possible - and on a full
window it holds exactly when the bandwidth `(upper - lower)/middle`
(`= 2·std_mult·std / middle`) of the last fully-formed window is strictly
below the threshold. -/
theorem bb_squeeze_fails_closed :
    (∀ (df : List Candle) (period : ℕ) (std_mult threshold : ℚ),
      df.length < period →
      ¬ detect_bb_squeeze df period std_mult threshold) ∧
    (∀ (df : List Candle) (period : ℕ) (std_mult threshold : ℚ),
      period ≤ df.length →
      (detect_bb_squeeze df period std_mult threshold ↔
        2 * (std_mult : ℝ) *
            Real.sqrt ((rollingVarLast (df.map Candle.close) period : ℚ)) /
            ((rollingMeanLast (df.map Candle.close) period : ℚ) : ℝ) <
          ((threshold : ℚ) : ℝ))) :=
  ⟨fun _ _ std_mult threshold h =>
    not_detect_bb_squeeze_of_short std_mult threshold h,
   fun _ _ std_mult threshold h => detect_bb_squeeze_iff std_mult threshold h⟩

/-- Witness for C9: 19 constant candles are below the default period of 20,
hence no squeeze; 20 constant candles have zero variance and unit mean,
bandwidth 0 < 0.02, hence a squeeze. -/
theorem bb_squeeze_fails_closed_witness :
    ¬ detect_bb_squeeze (List.replicate 19 ⟨0, 1, 1, 1, 1, 1⟩) BB_PERIOD
        BB_STD BB_SQUEEZE_THRESHOLD ∧
    detect_bb_squeeze (List.replicate 20 ⟨0, 1, 1, 1, 1, 1⟩) BB_PERIOD
        BB_STD BB_SQUEEZE_THRESHOLD := by
  constructor
  · exact bb_squeeze_fails_closed.1 _ _ _ _ (by simp [BB_PERIOD])
  · refine (bb_squeeze_fails_closed.2 _ _ _ _ (by simp [BB_PERIOD])).mpr ?_
    have hv : rollingVarLast
        ((List.replicate 20 (⟨0, 1, 1, 1, 1, 1⟩ : Candle)).map Candle.close)
        BB_PERIOD = 0 := by
      simp [rollingVarLast, sampleVariance, lastWindow, listMean,
        List.map_replicate, List.sum_replicate, BB_PERIOD]
      norm_num
    have hm : rollingMeanLast
        ((List.replicate 20 (⟨0, 1, 1, 1, 1, 1⟩ : Candle)).map Candle.close)
        BB_PERIOD = 1 := by
      simp [rollingMeanLast, lastWindow, listMean, List.map_replicate,
        List.sum_replicate, BB_PERIOD]
      norm_num
    rw [hv, hm]
    norm_num [BB_STD, BB_SQUEEZE_THRESHOLD]

/-- C3.  `generate_signal` is not pure in its declared inputs: it stamps the
wall-clock time into the record, so two calls at different instants return
different records, and it appends the record to the detector's
`signals_history`, mutating state outside its arguments and return value
(here: the threaded history changes). -/
theorem generate_signal_impure :
    (generate_signal "BTC/USDT" none ⟨"X", 0, false, 0, 0, none⟩ [] 0 []).1 ≠
      (generate_signal "BTC/USDT" none ⟨"X", 0, false, 0, 0, none⟩ [] 1 []).1 ∧
    (generate_signal "BTC/USDT" none ⟨"X", 0, false, 0, 0, none⟩ [] 0 []).2 ≠
      ([] : List Signal) := by
  constructor
  · intro hcontra
    have ht := congrArg Signal.timestamp hcontra
    norm_num [generate_signal] at ht
  · intro hcontra
    norm_num [generate_signal] at hcontra

/-- Amended C3.  Given the two hidden effects as explicit data, the call is
deterministic: the returned record does not depend on the history at all,
and the only state change is appending that record to the history. -/
theorem generate_signal_state_characterization :
    ∀ (symbol : String) (rvol_data : Option RvolSignal)
      (orderflow_data : OrderFlowResult) (price_df : List Candle) (now : ℚ)
      (h1 h2 : List Signal),
      (generate_signal symbol rvol_data orderflow_data price_df now h1).1 =
        (generate_signal symbol rvol_data orderflow_data price_df now h2).1 ∧
      (generate_signal symbol rvol_data orderflow_data price_df now h1).2 =
        h1 ++
          [(generate_signal symbol rvol_data orderflow_data price_df now h1).1] :=
  fun _ _ _ _ _ _ _ => ⟨rfl, rfl⟩

/-- C4.  A cycle whose first candidate scores 60 and second scores 75 emits
[60, 75] - the earlier signal has the smaller score, so the emitted sequence
is not ordered by descending score. -/
theorem cycle_emission_order_counterexample :
    ((scan_cycle
        [⟨"AAA", ⟨"AAA", 5, 1, 1, 1⟩, ⟨"AAA", 0, true, 1, 0, none⟩, [], 0⟩,
         ⟨"BBB", ⟨"BBB", 10, 1, 1, 1⟩, ⟨"BBB", 0, true, 2, 0, none⟩, [], 0⟩]
        []).2.map Signal.score) = [60, 75] ∧
    ¬ List.Sorted (fun a b => b ≤ a)
      ((scan_cycle
        [⟨"AAA", ⟨"AAA", 5, 1, 1, 1⟩, ⟨"AAA", 0, true, 1, 0, none⟩, [], 0⟩,
         ⟨"BBB", ⟨"BBB", 10, 1, 1, 1⟩, ⟨"BBB", 0, true, 2, 0, none⟩, [], 0⟩]
        []).2.map Signal.score) := by
  have hA : (cycle_signal
      ⟨"AAA", ⟨"AAA", 5, 1, 1, 1⟩, ⟨"AAA", 0, true, 1, 0, none⟩, [], 0⟩).score
      = 60 := by
    show calculate_signal_score (some ⟨"AAA", 5, 1, 1, 1⟩)
      ⟨"AAA", 0, true, 1, 0, none⟩ [] = 60
    rw [calculate_signal_score_eq]
    norm_num [rvolPoints, divergencePoints, icebergPoints, squeezePoints_nil]
  have hB : (cycle_signal
      ⟨"BBB", ⟨"BBB", 10, 1, 1, 1⟩, ⟨"BBB", 0, true, 2, 0, none⟩, [], 0⟩).score
      = 75 := by
    show calculate_signal_score (some ⟨"BBB", 10, 1, 1, 1⟩)
      ⟨"BBB", 0, true, 2, 0, none⟩ [] = 75
    rw [calculate_signal_score_eq]
    norm_num [rvolPoints, divergencePoints, icebergPoints, squeezePoints_nil]
  have hmap : ((scan_cycle
      [⟨"AAA", ⟨"AAA", 5, 1, 1, 1⟩, ⟨"AAA", 0, true, 1, 0, none⟩, [], 0⟩,
       ⟨"BBB", ⟨"BBB", 10, 1, 1, 1⟩, ⟨"BBB", 0, true, 2, 0, none⟩, [], 0⟩]
      []).2.map Signal.score) = [60, 75] := by
    simp only [scan_cycle, scan_cycle_loop_eq, List.map_cons, List.map_nil,
      List.filter_cons, List.filter_nil]
    simp [hA, hB]
  refine ⟨hmap, ?_⟩
  rw [hmap]
  intro hs
  have hrel := List.rel_of_sorted_cons hs 75 (by simp)
  norm_num at hrel

/-- Amended C4.  `scan_cycle` emits signals in candidate (loop) order - the
emitted list is exactly the generated signals, in order, filtered by score
at least 60, with no sorting - and descending-score order exists only in
`get_top_signals`, whose output is sorted by descending score. -/
theorem cycle_emission_amended :
    (∀ (inputs : List CycleInput) (signals_history : List Signal),
      scan_cycle inputs signals_history =
        (signals_history ++ inputs.map cycle_signal,
         (inputs.map cycle_signal).filter (fun s => decide (60 ≤ s.score)))) ∧
    (∀ (signals_history : List Signal) (limit : ℕ),
      List.Sorted (fun a b => b.score ≤ a.score)
        (get_top_signals signals_history limit)) :=
  ⟨fun inputs signals_history => scan_cycle_loop_eq inputs signals_history,
   get_top_signals_sorted⟩

/-- C2.  In `bookDeep` the first bid level (size 35) holds more than 30
percent of the first-10-level window total (80), so the claim's rule flags
it as a wall - but the code divides by the side's depth-band total (200),
where 35 is only 17.5 percent, and reports no bid wall at all. -/
theorem wall_denominator_counterexample :
    wall_claim bookDeep.bids ⟨10000, 35⟩ ∧
    (get_orderbook_imbalance bookDeep 1).map ImbalanceResult.bid_wall =
      some none := by
  refine ⟨⟨by norm_num [bookDeep], by norm_num [bookDeep]⟩, ?_⟩
  norm_num [get_orderbook_imbalance, bookDeep, detect_wall, List.filter_cons]
  exact ⟨_, ⟨by simp, rfl⟩, rfl⟩

/-- Amended C2.  Wall detection scans only the first 10 levels of a side,
but any reported wall has its size measured against the total volume the
caller passes - in `get_orderbook_imbalance`, the side's depth-band total,
not the 10-level window total - and only the first qualifying level is
reported.  On the spec's own example book (`bookWindow`: one side of
exactly 10 levels totalling 100, all inside the band, one level of 35),
the 35-level is flagged with 35 percent. -/
theorem wall_detection_amended :
    (∀ (orders : List Level) (total_volume threshold : ℚ) (w : Wall),
      detect_wall orders total_volume threshold = some w →
      ∃ l ∈ orders.take 10, w.price = l.price ∧ w.amount = l.amount ∧
        threshold * 100 ≤ l.amount / total_volume * 100) ∧
    (get_orderbook_imbalance bookWindow 1).map ImbalanceResult.bid_wall =
      some (some ⟨10000, 35, 35⟩) := by
  constructor
  · intro orders tv thr w h
    unfold detect_wall at h
    by_cases hguard : orders = [] ∨ tv = 0
    · rw [if_pos hguard] at h
      cases h
    · rw [if_neg hguard] at h
      rcases Option.map_eq_some'.mp h with ⟨l, hfind, hw⟩
      refine ⟨l, List.mem_of_find?_eq_some hfind, ?_, ?_, ?_⟩
      · rw [← hw]
      · rw [← hw]
      · have hp := List.find?_some hfind
        simp only [decide_eq_true_eq] at hp
        exact hp
  · norm_num [get_orderbook_imbalance, bookWindow, detect_wall,
      List.filter_cons, pyRound_thirtyfive]
    refine ⟨_, ⟨by simp, rfl⟩, ?_⟩
    simp

/-- Witness for C2 (amended): a one-level side whose level holds 35 percent
of the passed total volume of 100 is found among the first 10 levels. -/
theorem wall_detection_amended_witness :
    ∃ l ∈ ([⟨10000, 35⟩] : List Level).take 10,
      (⟨10000, 35, 35⟩ : Wall).price = l.price ∧
      (⟨10000, 35, 35⟩ : Wall).amount = l.amount ∧
      (3 : ℚ) / 10 * 100 ≤ l.amount / 100 * 100 :=
  wall_detection_amended.1 [⟨10000, 35⟩] 100 (3 / 10) ⟨10000, 35, 35⟩
    (by norm_num [detect_wall, pyRound_thirtyfive])

end Oraculo
